import Mathlib

/-!
Shallow embedding of `netsapiens_asyncio/messages.py` (class `MessageAPI`).

The two async methods `send_message` and `get_messages` are decomposed into
pure functions:

* the request-preparation phase (URL construction, session-id validation,
  payload/query construction), which runs after the credential refresh
  (`await self.auth_client.check_token_expiry()`) and before the HTTP call;
* the response-handling phase, a function of the transport outcome
  (an HTTP status/body pair, or a transport-level `aiohttp.ClientError`);
* an effect trace recording, in order, the credential refresh and the
  single HTTP request (when one is issued).

Python exceptions are modelled by `PyExc`; `raise ... from e` chains the
cause.  The token data returned by the refresh is passed in explicitly as
`TokenData`.  Python truthiness of optional strings/ints is modelled by
`pyTruthyStr` / `pyTruthyInt`, and `re.match(r"^[a-zA-Z0-9_]{32,}$", s)`
(where the Python `$` also matches just before a trailing newline) by
`pyMatchSession`.
-/

/-- Token data returned by `auth_client.check_token_expiry()`:
the fields `api_url` and `access_token` that `messages.py` reads. -/
structure TokenData where
  api_url : String
  access_token : String
deriving DecidableEq

/-- The `destination` argument of `send_message`: `Union[str, list]`. -/
inductive Dest where
  | single (s : String)
  | many (l : List String)
deriving DecidableEq

/-- JSON-ish values appearing in the request payload dict. -/
inductive JVal where
  | str (s : String)
  | arr (l : List String)
deriving DecidableEq

/-- Python exceptions raised by the module: `ValueError` (invalid session id),
plain `Exception` with an optional chained cause (`raise ... from e`), and
the transport-level `aiohttp.ClientError`. -/
inductive PyExc where
  | ValueError (msg : String)
  | GenericException (msg : String) (cause : Option PyExc)
  | AiohttpClientError (info : String)

/-- Outcome of the HTTP transport: a response with status and body text, or a
transport-level failure (connection error, reset, timeout) raised as an
`aiohttp.ClientError`. -/
inductive TransportResult where
  | ok (status : Nat) (body : String)
  | transportError (e : String)
deriving DecidableEq

/-- Observable effects of a call, in order: the credential refresh
(`check_token_expiry`) and the single HTTP request. -/
inductive Effect where
  | credentialRefresh
  | httpPost (url : String) (payload : List (String × JVal)) (authHeader : String)
  | httpGet (url : String) (params : List (String × String)) (authHeader : String)
deriving DecidableEq

/-- Python truthiness of an `Optional[str]`: `None` and `""` are falsy. -/
def pyTruthyStr : Option String → Bool
  | some s => decide (s ≠ "")
  | none => false

/-- Python truthiness of an `Optional[int]`: `None` and `0` are falsy. -/
def pyTruthyInt : Option Int → Bool
  | some n => decide (n ≠ 0)
  | none => false

/-- Characters admitted by the character class `[a-zA-Z0-9_]`. -/
def isSessionChar (c : Char) : Bool :=
  c.isAlpha || c.isDigit || c == '_'

/-- The check `re.match(r"^[a-zA-Z0-9_]{32,}$", s)` of `messages.py`.
In Python, `$` matches at the end of the string or just before a single
trailing newline, so a trailing `"\n"` is tolerated. -/
def pyMatchSession (s : String) : Bool :=
  let cs := if s.data.getLast? = some '\n' then s.data.dropLast else s.data
  decide (32 ≤ cs.length) && cs.all isSessionChar

/-- The Python expression `user or '~'` for an `Optional[str]`. -/
def pyOrTilde : Option String → String
  | some u => if u = "" then "~" else u
  | none => "~"

/-- Arguments of `MessageAPI.send_message` (after the required positionals). -/
structure SendArgs where
  message_type : String
  message : String
  destination : Dest
  from_number : String
  messagesession : Option String := none
  data : Option String := none
  mime_type : Option String := none
  size : Option Int := none
deriving DecidableEq

/-- The payload dict built by `send_message` (insertion order preserved):
required keys `type`, `message`, `destination` (normalised to a list via
`isinstance(destination, list)`), `from-number`; then `data`, `mime-type`
and `size` (as `str(size)`) each added only when truthy. -/
def send_payload (a : SendArgs) : List (String × JVal) :=
  let base : List (String × JVal) :=
    [("type", JVal.str a.message_type),
     ("message", JVal.str a.message),
     ("destination", JVal.arr (match a.destination with
       | Dest.many l => l
       | Dest.single s => [s])),
     ("from-number", JVal.str a.from_number)]
  let base := if pyTruthyStr a.data then base ++ [("data", JVal.str (a.data.getD ""))] else base
  let base := if pyTruthyStr a.mime_type then base ++ [("mime-type", JVal.str (a.mime_type.getD ""))] else base
  if pyTruthyInt a.size then base ++ [("size", JVal.str (toString (a.size.getD 0)))] else base

/-- The exact `ValueError` message of `send_message`. -/
def invalidSessionMsg : String :=
  "Invalid messagesession ID. Must be at least 32 characters long, alphanumeric, and underscores only."

/-- Request-preparation phase of `send_message`, run after the credential
refresh: validates a truthy `messagesession` against the pattern (raising
`ValueError` on failure), selects the session URL or the default URL, and
builds the payload.  `d` and `u` are `self.domain` and `self.user`
(both `"~"` as set by the constructor). -/
def send_message_prep (auth : TokenData) (d u : String) (a : SendArgs) :
    Except PyExc (String × List (String × JVal)) :=
  if pyTruthyStr a.messagesession then
    let ms := a.messagesession.getD ""
    if pyMatchSession ms then
      Except.ok (auth.api_url ++ "/ns-api/v2/domains/" ++ d ++ "/users/" ++ u
        ++ "/messagesessions/" ++ ms ++ "/messages", send_payload a)
    else
      Except.error (PyExc.ValueError invalidSessionMsg)
  else
    Except.ok (auth.api_url ++ "/ns-api/v2/domains/" ++ d ++ "/users/" ++ u
      ++ "/messages", send_payload a)

/-- Effect trace of `send_message`: the credential refresh happens first,
unconditionally; the POST is issued only when preparation succeeds. -/
def send_message_trace (auth : TokenData) (d u : String) (a : SendArgs) : List Effect :=
  Effect.credentialRefresh ::
    (match send_message_prep auth d u a with
     | Except.error _ => []
     | Except.ok (url, payload) =>
         [Effect.httpPost url payload ("Bearer " ++ auth.access_token)])

/-- Response handling of `send_message`: on status 200 return the (opaque)
JSON body; otherwise raise `Exception("Failed to send message: " + body)`.
There is no try/except around the request, so a transport-level
`aiohttp.ClientError` propagates to the caller unwrapped. -/
def send_message_handle : TransportResult → Except PyExc String
  | TransportResult.ok status body =>
      if status = 200 then Except.ok body
      else Except.error (PyExc.GenericException ("Failed to send message: " ++ body) none)
  | TransportResult.transportError e => Except.error (PyExc.AiohttpClientError e)

/-- URL selection of `get_messages` (no validation is performed on
`messagesession`, despite the source comment announcing it):
truthy `messagesession` selects the per-session messages URL with
`user or '~'`; else a truthy `user` selects the per-user sessions URL;
else the per-domain sessions URL. -/
def get_messages_url (base : String) (messagesession : Option String)
    (domain : String) (user : Option String) : String :=
  if pyTruthyStr messagesession then
    base ++ "/ns-api/v2/domains/" ++ domain ++ "/users/" ++ pyOrTilde user
      ++ "/messagesessions/" ++ messagesession.getD "" ++ "/messages"
  else if pyTruthyStr user then
    base ++ "/ns-api/v2/domains/" ++ domain ++ "/users/" ++ user.getD ""
      ++ "/messagesessions"
  else
    base ++ "/ns-api/v2/domains/" ++ domain ++ "/messagesessions"

/-- Query parameters of `get_messages`: `limit` attached as `str(limit)`
only when truthy. -/
def get_messages_params (limit : Option Int) : List (String × String) :=
  if pyTruthyInt limit then [("limit", toString (limit.getD 0))] else []

/-- Request-preparation phase of `get_messages`: URL and query parameters.
It never raises — `get_messages` performs no session-id validation. -/
def get_messages_prep (auth : TokenData) (messagesession : Option String)
    (domain : String) (user : Option String) (limit : Option Int) :
    String × List (String × String) :=
  (get_messages_url auth.api_url messagesession domain user, get_messages_params limit)

/-- Effect trace of `get_messages`: the credential refresh, then always the
GET request (preparation cannot fail). -/
def get_messages_trace (auth : TokenData) (messagesession : Option String)
    (domain : String) (user : Option String) (limit : Option Int) : List Effect :=
  let p := get_messages_prep auth messagesession domain user limit
  [Effect.credentialRefresh,
   Effect.httpGet p.1 p.2 ("Bearer " ++ auth.access_token)]

/-- Response handling of `get_messages`.  Inside the `try` block a non-200
status raises `Exception("Failed to retrieve messages. Status: ..., Error: ...")`;
that exception is not an `aiohttp.ClientError`, so it is caught by the
trailing `except Exception` handler and re-raised as
`Exception("An unexpected error occurred.") from e`.  A transport-level
`aiohttp.ClientError` is caught by the first handler and re-raised as
`Exception("Network error occurred while retrieving messages.") from e`
(an exception raised inside an `except` clause is not caught by a sibling
clause of the same `try`). -/
def get_messages_handle : TransportResult → Except PyExc String
  | TransportResult.ok status body =>
      if status = 200 then Except.ok body
      else
        Except.error (PyExc.GenericException "An unexpected error occurred."
          (some (PyExc.GenericException
            ("Failed to retrieve messages. Status: " ++ toString status ++ ", Error: " ++ body)
            none)))
  | TransportResult.transportError e =>
      Except.error (PyExc.GenericException "Network error occurred while retrieving messages."
        (some (PyExc.AiohttpClientError e)))

/-- Does this outcome raise a `ValueError` (the `InvalidArgument` of the module)? -/
def raisesValueError {α : Type} : Except PyExc α → Bool
  | Except.error (PyExc.ValueError _) => true
  | _ => false

/-- Does this outcome raise a generic `Exception` wrapping some cause
(the shape of a `NetworkError`-style wrapper)? -/
def isGenericWithCause {α : Type} : Except PyExc α → Bool
  | Except.error (PyExc.GenericException _ (some _)) => true
  | _ => false

/-- Substring test used to state what an exception message carries. -/
def strContains (hay needle : String) : Bool :=
  decide (needle.toList <:+: hay.toList)

/-! Concrete fixtures used by witnesses and counterexamples. -/

/-- Token data fixture standing for the result of the credential refresh. -/
def auth0 : TokenData := { api_url := "https://api.example.com", access_token := "tok123" }

/-- A valid session id: 32 copies of the letter a. -/
def a32 : String := "aaaaaaaaaaaaaaaaaaaaaaaaaaaaaaaa"

/-- An invalid session id: 31 copies of the letter a. -/
def a31 : String := "aaaaaaaaaaaaaaaaaaaaaaaaaaaaaaa"

/-- A valid session id: 40 copies of the letter x. -/
def x40 : String := "xxxxxxxxxxxxxxxxxxxxxxxxxxxxxxxxxxxxxxxx"

/-- Baseline `send_message` arguments with every optional argument left out. -/
def argsBase : SendArgs :=
  { message_type := "sms", message := "hi",
    destination := Dest.single "15551234567", from_number := "15557654321" }

/-! Helper lemmas. -/

/-- A string accepted by the session pattern has at least 32 characters,
so it is not empty. -/
theorem pyMatchSession_ne_empty (s : String) (h : pyMatchSession s = true) : s ≠ "" := by
  rintro rfl
  exact absurd h (by decide)

/-- A truthy `messagesession` equal to `some ms` with `ms` failing the
pattern makes `send_message_prep` raise the `ValueError`. -/
theorem send_message_prep_invalid (auth : TokenData) (d u : String) (a : SendArgs)
    (ms : String) (hms : a.messagesession = some ms) (hne : ms ≠ "")
    (hbad : pyMatchSession ms = false) :
    send_message_prep auth d u a = Except.error (PyExc.ValueError invalidSessionMsg) := by
  simp [send_message_prep, pyTruthyStr, hms, hne, hbad]

/-- C1.  The claim says any `session_id` failing the pattern — the empty
string included — makes `send_message` fail with `InvalidArgument` with zero
network calls, the credential refresh included.  Counterexamples: with
`messagesession = some ""` the truthiness guard skips validation and no
`ValueError` is raised (the POST is issued on the default path), and with
the non-matching `messagesession = some "-"` the effect trace still
contains the credential refresh, which the code performs before
validation. -/
theorem send_message_invalid_session_cex :
    raisesValueError (send_message_prep auth0 "~" "~"
      { argsBase with messagesession := some "" }) = false ∧
    send_message_trace auth0 "~" "~" { argsBase with messagesession := some "" } =
      [Effect.credentialRefresh,
       Effect.httpPost "https://api.example.com/ns-api/v2/domains/~/users/~/messages"
         (send_payload { argsBase with messagesession := some "" }) "Bearer tok123"] ∧
    Effect.credentialRefresh ∈
      send_message_trace auth0 "~" "~" { argsBase with messagesession := some "-" } :=
  ⟨rfl, rfl, by decide⟩

/-- C1 (amended).  For every non-empty `messagesession` that fails the
pattern, `send_message` raises the `ValueError` (`InvalidArgument`) and
issues no HTTP request — but the credential refresh is still performed
before validation, so the effect trace is exactly `[credentialRefresh]`. -/
theorem send_message_invalid_session (auth : TokenData) (d u : String) (a : SendArgs)
    (ms : String) (hms : a.messagesession = some ms) (hne : ms ≠ "")
    (hbad : pyMatchSession ms = false) :
    send_message_prep auth d u a = Except.error (PyExc.ValueError invalidSessionMsg) ∧
    send_message_trace auth d u a = [Effect.credentialRefresh] := by
  have hprep := send_message_prep_invalid auth d u a ms hms hne hbad
  exact ⟨hprep, by simp [send_message_trace, hprep]⟩

/-- C1 witness: the 31-character session id raises the `ValueError` and the
trace stops after the credential refresh. -/
theorem send_message_invalid_session_witness :
    send_message_prep auth0 "~" "~" { argsBase with messagesession := some a31 } =
      Except.error (PyExc.ValueError invalidSessionMsg) ∧
    send_message_trace auth0 "~" "~" { argsBase with messagesession := some a31 } =
      [Effect.credentialRefresh] :=
  send_message_invalid_session auth0 "~" "~" { argsBase with messagesession := some a31 }
    a31 rfl (by decide) (by decide)

/-- C2.  The claim says both operations raise an error carrying the status
code and the body text; at a 403 response with body `"forbidden"`,
`send_message` raises `Exception("Failed to send message: forbidden")`,
whose message does not contain `"403"`, and `get_messages` raises the
generic `Exception("An unexpected error occurred.")` that carries status
and body only in its chained cause. -/
theorem non200_error_cex :
    send_message_handle (TransportResult.ok 403 "forbidden") =
      Except.error (PyExc.GenericException "Failed to send message: forbidden" none) ∧
    strContains "Failed to send message: forbidden" "403" = false ∧
    get_messages_handle (TransportResult.ok 403 "forbidden") =
      Except.error (PyExc.GenericException "An unexpected error occurred."
        (some (PyExc.GenericException
          "Failed to retrieve messages. Status: 403, Error: forbidden" none))) :=
  ⟨rfl, by decide, rfl⟩

/-- C2 (amended).  On any non-200 status, `send_message` raises an
exception whose message carries the raw body text but not the status code,
and `get_messages` raises the fixed generic exception whose chained cause
carries status and body. -/
theorem non200_error_shape (status : Nat) (body : String) (h : status ≠ 200) :
    send_message_handle (TransportResult.ok status body) =
      Except.error (PyExc.GenericException ("Failed to send message: " ++ body) none) ∧
    get_messages_handle (TransportResult.ok status body) =
      Except.error (PyExc.GenericException "An unexpected error occurred."
        (some (PyExc.GenericException
          ("Failed to retrieve messages. Status: " ++ toString status ++ ", Error: " ++ body)
          none))) := by
  constructor <;> simp [send_message_handle, get_messages_handle, h]

/-- C2 witness: the amended behaviour at a 500 response with body
`"server error"`. -/
theorem non200_error_shape_witness :
    send_message_handle (TransportResult.ok 500 "server error") =
      Except.error (PyExc.GenericException "Failed to send message: server error" none) ∧
    get_messages_handle (TransportResult.ok 500 "server error") =
      Except.error (PyExc.GenericException "An unexpected error occurred."
        (some (PyExc.GenericException
          "Failed to retrieve messages. Status: 500, Error: server error" none))) :=
  non200_error_shape 500 "server error" (by decide)

/-- C3.  The claim says both operations wrap transport-level failures in a
`NetworkError` carrying the cause; counterexample: `send_message` has no
try/except, so a connection reset propagates as the raw
`aiohttp.ClientError`, not as any wrapper exception with a cause. -/
theorem transport_error_cex :
    send_message_handle (TransportResult.transportError "connection reset") =
      Except.error (PyExc.AiohttpClientError "connection reset") ∧
    isGenericWithCause
      (send_message_handle (TransportResult.transportError "connection reset")) = false :=
  ⟨rfl, rfl⟩

/-- C3 (amended).  Only `get_messages` wraps a transport-level failure,
raising `Exception("Network error occurred while retrieving messages.")`
with the `aiohttp.ClientError` as chained cause; `send_message` propagates
the transport exception unwrapped. -/
theorem transport_error_shape (e : String) :
    get_messages_handle (TransportResult.transportError e) =
      Except.error (PyExc.GenericException
        "Network error occurred while retrieving messages."
        (some (PyExc.AiohttpClientError e))) ∧
    send_message_handle (TransportResult.transportError e) =
      Except.error (PyExc.AiohttpClientError e) :=
  ⟨rfl, rfl⟩

/-- The `destination` entry of the payload is always the normalised array,
wherever the optional fields put the rest of the dict. -/
theorem lookup_destination (a : SendArgs) :
    List.lookup "destination" (send_payload a) =
      some (JVal.arr (match a.destination with
        | Dest.many l => l
        | Dest.single s => [s])) := by
  by_cases h1 : pyTruthyStr a.data = true <;>
    by_cases h2 : pyTruthyStr a.mime_type = true <;>
    by_cases h3 : pyTruthyInt a.size = true <;>
    simp [send_payload, h1, h2, h3, List.lookup]

/-- C4.  A single-string `destination` is normalised to the one-element
array `[s]`; a list `destination` is passed through with order and
elements preserved. -/
theorem destination_normalized (a : SendArgs) :
    (∀ s, a.destination = Dest.single s →
      List.lookup "destination" (send_payload a) = some (JVal.arr [s])) ∧
    (∀ l, a.destination = Dest.many l →
      List.lookup "destination" (send_payload a) = some (JVal.arr l)) := by
  have h := lookup_destination a
  constructor
  · rintro s hd
    rw [h, hd]
  · rintro l hd
    rw [h, hd]

/-- C4 witness: a single string becomes a one-element array; a two-element
list is preserved in order. -/
theorem destination_normalized_witness :
    List.lookup "destination" (send_payload argsBase) =
      some (JVal.arr ["15551234567"]) ∧
    List.lookup "destination"
        (send_payload { argsBase with destination := Dest.many ["111", "222"] }) =
      some (JVal.arr ["111", "222"]) :=
  ⟨(destination_normalized argsBase).1 "15551234567" rfl,
   (destination_normalized { argsBase with destination := Dest.many ["111", "222"] }).2
     ["111", "222"] rfl⟩

/-- C5.  A valid (pattern-matching) `messagesession` selects the
per-session messages path; an absent one selects the default messages
path. -/
theorem send_message_path_selection (auth : TokenData) (d u : String) (a : SendArgs) :
    (∀ ms, a.messagesession = some ms → pyMatchSession ms = true →
      send_message_prep auth d u a = Except.ok
        (auth.api_url ++ "/ns-api/v2/domains/" ++ d ++ "/users/" ++ u
          ++ "/messagesessions/" ++ ms ++ "/messages", send_payload a)) ∧
    (a.messagesession = none →
      send_message_prep auth d u a = Except.ok
        (auth.api_url ++ "/ns-api/v2/domains/" ++ d ++ "/users/" ++ u
          ++ "/messages", send_payload a)) := by
  constructor
  · rintro ms hms hok
    have hne := pyMatchSession_ne_empty ms hok
    simp [send_message_prep, pyTruthyStr, hms, hne, hok]
  · intro hms
    simp [send_message_prep, pyTruthyStr, hms]

/-- C5 witness: 32 copies of the letter a select the session path; no
session id selects the default path. -/
theorem send_message_path_selection_witness :
    send_message_prep auth0 "~" "~" { argsBase with messagesession := some a32 } =
      Except.ok ("https://api.example.com/ns-api/v2/domains/~/users/~/messagesessions/"
          ++ a32 ++ "/messages",
        send_payload { argsBase with messagesession := some a32 }) ∧
    send_message_prep auth0 "~" "~" argsBase =
      Except.ok ("https://api.example.com/ns-api/v2/domains/~/users/~/messages",
        send_payload argsBase) :=
  ⟨(send_message_path_selection auth0 "~" "~"
      { argsBase with messagesession := some a32 }).1 a32 rfl (by decide),
   (send_message_path_selection auth0 "~" "~" argsBase).2 rfl⟩

/-- C6.  The `get_messages` URL is selected by a first-match-wins
three-way branch: a truthy `messagesession` selects the per-session
messages path with `user or "~"`; else a truthy `user` selects the
per-user sessions path; else the per-domain sessions path. -/
theorem get_messages_path_selection (auth : TokenData) (ms : Option String)
    (domain : String) (user : Option String) (limit : Option Int) :
    (∀ m, ms = some m → m ≠ "" →
      (get_messages_prep auth ms domain user limit).1 =
        auth.api_url ++ "/ns-api/v2/domains/" ++ domain ++ "/users/" ++ pyOrTilde user
          ++ "/messagesessions/" ++ m ++ "/messages") ∧
    (pyTruthyStr ms = false → ∀ usr, user = some usr → usr ≠ "" →
      (get_messages_prep auth ms domain user limit).1 =
        auth.api_url ++ "/ns-api/v2/domains/" ++ domain ++ "/users/" ++ usr
          ++ "/messagesessions") ∧
    (pyTruthyStr ms = false → pyTruthyStr user = false →
      (get_messages_prep auth ms domain user limit).1 =
        auth.api_url ++ "/ns-api/v2/domains/" ++ domain ++ "/messagesessions") := by
  refine ⟨?_, ?_, ?_⟩
  · rintro m hm hne
    simp [get_messages_prep, get_messages_url, pyTruthyStr, hm, hne]
  · rintro hms usr husr hne
    subst husr
    have h2 : pyTruthyStr (some usr) = true := by simp [pyTruthyStr, hne]
    simp [get_messages_prep, get_messages_url, hms, h2]
  · rintro hms hus
    simp [get_messages_prep, get_messages_url, hms, hus]

/-- C6 witness: the three spec examples — a session id with user bob and
domain acme, user bob alone with the default domain, and no arguments. -/
theorem get_messages_path_selection_witness :
    (get_messages_prep auth0 (some x40) "acme" (some "bob") none).1 =
      "https://api.example.com/ns-api/v2/domains/acme/users/bob/messagesessions/"
        ++ x40 ++ "/messages" ∧
    (get_messages_prep auth0 none "~" (some "bob") none).1 =
      "https://api.example.com/ns-api/v2/domains/~/users/bob/messagesessions" ∧
    (get_messages_prep auth0 none "~" none none).1 =
      "https://api.example.com/ns-api/v2/domains/~/messagesessions" :=
  ⟨(get_messages_path_selection auth0 (some x40) "acme" (some "bob") none).1
      x40 rfl (by decide),
   (get_messages_path_selection auth0 none "~" (some "bob") none).2.1
      rfl "bob" rfl (by decide),
   (get_messages_path_selection auth0 none "~" none none).2.2 rfl rfl⟩

/-- The `data` entry of the payload is present (with the supplied string)
exactly when `data` is truthy. -/
theorem lookup_data_eq (a : SendArgs) :
    List.lookup "data" (send_payload a) =
      if pyTruthyStr a.data then some (JVal.str (a.data.getD "")) else none := by
  by_cases h1 : pyTruthyStr a.data = true <;>
    by_cases h2 : pyTruthyStr a.mime_type = true <;>
    by_cases h3 : pyTruthyInt a.size = true <;>
    simp [send_payload, h1, h2, h3, List.lookup]

/-- The `mime-type` entry of the payload is present exactly when
`mime_type` is truthy. -/
theorem lookup_mime_eq (a : SendArgs) :
    List.lookup "mime-type" (send_payload a) =
      if pyTruthyStr a.mime_type then some (JVal.str (a.mime_type.getD "")) else none := by
  by_cases h1 : pyTruthyStr a.data = true <;>
    by_cases h2 : pyTruthyStr a.mime_type = true <;>
    by_cases h3 : pyTruthyInt a.size = true <;>
    simp [send_payload, h1, h2, h3, List.lookup]

/-- The `size` entry of the payload is present (as `str(size)`) exactly
when `size` is truthy. -/
theorem lookup_size_eq (a : SendArgs) :
    List.lookup "size" (send_payload a) =
      if pyTruthyInt a.size then some (JVal.str (toString (a.size.getD 0))) else none := by
  by_cases h1 : pyTruthyStr a.data = true <;>
    by_cases h2 : pyTruthyStr a.mime_type = true <;>
    by_cases h3 : pyTruthyInt a.size = true <;>
    simp [send_payload, h1, h2, h3, List.lookup]

/-- C7.  The claim says the optional fields are present whenever supplied;
counterexample: a supplied `size = 0` (and a supplied `limit = 0`) is
falsy, so it is omitted from the payload and from the query. -/
theorem optional_fields_policy_cex :
    ({ argsBase with size := some 0 } : SendArgs).size = some 0 ∧
    List.lookup "size" (send_payload { argsBase with size := some 0 }) = none ∧
    get_messages_params (some 0) = [] :=
  ⟨rfl, rfl, rfl⟩

/-- C7 (amended).  The optional fields `data`, `mime-type`, `size` and the
query parameter `limit` are absent when not supplied, and present with
correct string conversion when supplied with a truthy value (non-empty
string, nonzero integer); supplied falsy values are omitted as if absent. -/
theorem optional_fields_policy (a : SendArgs) (limit : Option Int) :
    (a.data = none → List.lookup "data" (send_payload a) = none) ∧
    (∀ s, a.data = some s → s ≠ "" →
      List.lookup "data" (send_payload a) = some (JVal.str s)) ∧
    (a.mime_type = none → List.lookup "mime-type" (send_payload a) = none) ∧
    (∀ s, a.mime_type = some s → s ≠ "" →
      List.lookup "mime-type" (send_payload a) = some (JVal.str s)) ∧
    (a.size = none → List.lookup "size" (send_payload a) = none) ∧
    (∀ n, a.size = some n → n ≠ 0 →
      List.lookup "size" (send_payload a) = some (JVal.str (toString n))) ∧
    (limit = none → get_messages_params limit = []) ∧
    (∀ n, limit = some n → n ≠ 0 →
      get_messages_params limit = [("limit", toString n)]) := by
  refine ⟨?_, ?_, ?_, ?_, ?_, ?_, ?_, ?_⟩
  · intro h
    rw [lookup_data_eq]
    simp [pyTruthyStr, h]
  · rintro s h hne
    rw [lookup_data_eq]
    simp [pyTruthyStr, h, hne]
  · intro h
    rw [lookup_mime_eq]
    simp [pyTruthyStr, h]
  · rintro s h hne
    rw [lookup_mime_eq]
    simp [pyTruthyStr, h, hne]
  · intro h
    rw [lookup_size_eq]
    simp [pyTruthyInt, h]
  · rintro n h hne
    rw [lookup_size_eq]
    simp [pyTruthyInt, h, hne]
  · intro h
    simp [get_messages_params, pyTruthyInt, h]
  · rintro n h hne
    simp [get_messages_params, pyTruthyInt, h, hne]

/-- Arguments with every optional payload field supplied truthy. -/
def argsFull : SendArgs :=
  { argsBase with data := some "ZGF0YQ==", mime_type := some "image/png", size := some 3 }

/-- C7 witness: the optional fields are absent on the baseline arguments
and present with string conversion on the fully supplied arguments. -/
theorem optional_fields_policy_witness :
    List.lookup "data" (send_payload argsBase) = none ∧
    List.lookup "data" (send_payload argsFull) = some (JVal.str "ZGF0YQ==") ∧
    List.lookup "mime-type" (send_payload argsBase) = none ∧
    List.lookup "mime-type" (send_payload argsFull) = some (JVal.str "image/png") ∧
    List.lookup "size" (send_payload argsBase) = none ∧
    List.lookup "size" (send_payload argsFull) = some (JVal.str "3") ∧
    get_messages_params none = [] ∧
    get_messages_params (some 7) = [("limit", "7")] :=
  ⟨(optional_fields_policy argsBase none).1 rfl,
   (optional_fields_policy argsFull none).2.1 "ZGF0YQ==" rfl (by decide),
   (optional_fields_policy argsBase none).2.2.1 rfl,
   (optional_fields_policy argsFull none).2.2.2.1 "image/png" rfl (by decide),
   (optional_fields_policy argsBase none).2.2.2.2.1 rfl,
   (optional_fields_policy argsFull none).2.2.2.2.2.1 3 rfl (by decide),
   (optional_fields_policy argsBase none).2.2.2.2.2.2.1 rfl,
   (optional_fields_policy argsBase (some 7)).2.2.2.2.2.2.2 7 rfl (by decide)⟩

/-- C8.  `get_messages` does not validate the session id, although its own
source comment announces validation: with the invalid session id `"-"`
(which fails the pattern) the call still issues the GET request to the
per-session URL containing `"-"`, after the credential refresh. -/
theorem get_messages_skips_validation :
    pyMatchSession "-" = false ∧
    get_messages_trace auth0 (some "-") "~" none none =
      [Effect.credentialRefresh,
       Effect.httpGet
         "https://api.example.com/ns-api/v2/domains/~/users/~/messagesessions/-/messages"
         [] "Bearer tok123"] :=
  ⟨by decide, rfl⟩

/-- The message of the exception an outcome raises, when it raises one. -/
def raisedMsg {α : Type} : Except PyExc α → Option String
  | Except.error (PyExc.ValueError m) => some m
  | Except.error (PyExc.GenericException m _) => some m
  | Except.error (PyExc.AiohttpClientError m) => some m
  | Except.ok _ => none

/-- The chained cause of the exception an outcome raises, when the raised
exception is a generic `Exception` with a cause. -/
def raisedCause {α : Type} : Except PyExc α → Option PyExc
  | Except.error (PyExc.GenericException _ c) => c
  | _ => none

/-- C9.  On any non-200 status, the exception `get_messages` raises
directly is the fixed generic `Exception("An unexpected error occurred.")`
produced by the trailing catch-all handler; the status-and-body-carrying
exception from the non-200 branch reaches the caller only as the chained
cause. -/
theorem get_messages_wraps_non200 (status : Nat) (body : String) (h : status ≠ 200) :
    raisedMsg (get_messages_handle (TransportResult.ok status body)) =
      some "An unexpected error occurred." ∧
    raisedCause (get_messages_handle (TransportResult.ok status body)) =
      some (PyExc.GenericException
        ("Failed to retrieve messages. Status: " ++ toString status ++ ", Error: " ++ body)
        none) := by
  constructor <;> simp [get_messages_handle, raisedMsg, raisedCause, h]

/-- C9 witness: a 404 response with body not found raises the fixed
generic exception with the detailed exception as its cause. -/
theorem get_messages_wraps_non200_witness :
    raisedMsg (get_messages_handle (TransportResult.ok 404 "not found")) =
      some "An unexpected error occurred." ∧
    raisedCause (get_messages_handle (TransportResult.ok 404 "not found")) =
      some (PyExc.GenericException
        "Failed to retrieve messages. Status: 404, Error: not found" none) :=
  get_messages_wraps_non200 404 "not found" (by decide)

/-- C10.  An empty-string `messagesession` is falsy, so `send_message`
treats it exactly as an absent one: no `ValueError` is raised and the
request targets the default messages path, with the same outcome as
`messagesession = none`. -/
theorem empty_session_treated_absent (auth : TokenData) (d u : String) (a : SendArgs) :
    send_message_prep auth d u { a with messagesession := some "" } =
      send_message_prep auth d u { a with messagesession := none } ∧
    send_message_prep auth d u { a with messagesession := some "" } =
      Except.ok (auth.api_url ++ "/ns-api/v2/domains/" ++ d ++ "/users/" ++ u
        ++ "/messages", send_payload { a with messagesession := some "" }) :=
  ⟨rfl, rfl⟩
